import Mathlib

/-!
Verification of the behavioral core of the React-Native-Template repository:
the gesture-driven bottom-sheet animator (`src/screens/Login/index.tsx`) and
the navigation persistence controller
(`src/navigation/helpers/navigationUtilities.ts`).

The TypeScript sources are shallowly embedded: shared animated values become a
record of a rational instantaneous value plus an optional in-flight animation
(the reanimated library contract — `withTiming` / `withSpring` converge to the
given target — is modelled by the `target` carried in the animation); React
hook semantics (refs, effect dependency arrays) become explicit state passing
over event traces; JavaScript `undefined`-producing lookups become `Option`.
-/

/-! ## Bottom-sheet animator: data model

`src/screens/Login/index.tsx`, component `BottomUpAnimation`. A reanimated
shared value holds an instantaneous numeric value; assigning a plain number
sets it immediately (cancelling any in-flight animation), while assigning
`withTiming`/`withSpring` installs an animation that converges to its target. -/

/-- An in-flight animation on a shared value, as installed by the reanimated
primitives used in the source: `withTiming(target, { duration })` (time-based)
or `withSpring(target)` (physics-based). Both converge to `target`. -/
inductive Anim where
  | timing (target : ℚ) (durationMs : ℚ)
  | spring (target : ℚ)
deriving DecidableEq

/-- A reanimated shared value: its instantaneous value at the current event,
plus the in-flight animation, if any. -/
structure SharedValue where
  current : ℚ
  anim : Option Anim
deriving DecidableEq

/-- Plain assignment `x.value = c`: sets the value immediately and supersedes
any in-flight animation. -/
def SharedValue.assign (c : ℚ) : SharedValue :=
  { current := c, anim := none }

/-- `x.value = withTiming(target, { duration })`: keeps the instantaneous
value and installs a time-based animation toward `target`. -/
def SharedValue.setTiming (x : SharedValue) (target durationMs : ℚ) : SharedValue :=
  { current := x.current, anim := some (Anim.timing target durationMs) }

/-- `x.value = withSpring(target)`: keeps the instantaneous value and installs
a spring animation toward `target`. -/
def SharedValue.setSpring (x : SharedValue) (target : ℚ) : SharedValue :=
  { current := x.current, anim := some (Anim.spring target) }

/-- The value a shared value converges to once animations settle: the target
of the in-flight animation, or the current value when none is in flight.
Models the reanimated contract that `withTiming`/`withSpring` settle at their
target. -/
def SharedValue.eventualValue (x : SharedValue) : ℚ :=
  match x.anim with
  | none => x.current
  | some (Anim.timing t _) => t
  | some (Anim.spring t) => t

/-- The animator state of `BottomUpAnimation`: the two shared values
`translateY` (vertical offset of the sheet) and `scale`, and the gesture
context field `ctx.startY`. -/
structure SheetState where
  translateY : SharedValue
  scale : SharedValue
  startY : ℚ
deriving DecidableEq

/-- `onStart: (_, ctx) => { ctx.startY = translateY.value }` — capture the
current vertical offset at gesture start; nothing else is mutated. -/
def onStart (st : SheetState) : SheetState :=
  { st with startY := st.translateY.current }

/-- `onActive: (event, ctx) => { translateY.value = ctx.startY +
event.translationY; scale.value = event.translationY > 0 ? 1 -
event.translationY / 1000 : 1 }`. `event.translationY` is the cumulative
translation since gesture start. -/
def onActive (translationY : ℚ) (st : SheetState) : SheetState :=
  { st with
    translateY := SharedValue.assign (st.startY + translationY)
    scale := SharedValue.assign (if translationY > 0 then 1 - translationY / 1000 else 1) }

/-- `onEnd: () => { translateY.value = withSpring(0); scale.value =
withSpring(1) }`. The handler takes no data from the event: no velocity or
threshold is consulted. -/
def onEnd (st : SheetState) : SheetState :=
  { st with
    translateY := st.translateY.setSpring 0
    scale := st.scale.setSpring 1 }

/-- A drag phase: the moves of a gesture, applied in order after the start. -/
def runMoves (tys : List ℚ) (st : SheetState) : SheetState :=
  tys.foldl (fun s ty => onActive ty s) st

/-- The mount-time entrance effect, `useEffect(() => { translateY.value = 300;
translateY.value = withTiming(0, { duration: 1000 }) }, [translateY])`:
an instantaneous jump to 300 followed by a 1000 ms time-based animation
toward 0. -/
def mountEffect (st : SheetState) : SheetState :=
  { st with translateY := (SharedValue.assign 300).setTiming 0 1000 }

/-- Instantaneous value of a time-based animation from `source` toward
`target` over `durationMs`, at time `t`, for easing curve `ease` (the
time-based interpolation contract of `withTiming`). -/
def timingValueAt (source target durationMs : ℚ) (ease : ℚ → ℚ) (t : ℚ) : ℚ :=
  source + (target - source) * ease (t / durationMs)

/-- Helper for `effectExecutions`: executions caused by re-renders, given the
previously observed dependency value. -/
def effectExecutionsFrom : Nat → List Nat → Nat
  | _, [] => 0
  | prev, d :: ds => (if d = prev then 0 else 1) + effectExecutionsFrom d ds

/-- React effect semantics for a dependency list: given the dependency value
observed at each successive render, the effect body runs after the first
render and after every render whose dependency differs from the previous
render's. -/
def effectExecutions : List Nat → Nat
  | [] => 0
  | d :: ds => 1 + effectExecutionsFrom d ds

/-! ## Navigation state and the active-route lookup

`src/navigation/helpers/navigationUtilities.ts`. A (partial) navigation state
is a record with an optional selected `index` and a list of routes; each route
has a `name` and an optional nested child state. JavaScript's
`state.routes[state.index ?? 0]` is embedded as `List.get?` with the index
defaulted to 0; accessing `.state` on an out-of-bounds (undefined) entry
throws, which the embedding renders as `none`. -/

/-- A navigation state: optional selected index and a list of routes, each a
name paired with an optional nested state. -/
inductive NavState : Type where
  | mk (index : Option Nat) (routes : List (String × Option NavState))

/-- The `index` field of a navigation state. -/
def NavState.index : NavState → Option Nat
  | .mk i _ => i

/-- The `routes` field of a navigation state. -/
def NavState.routes : NavState → List (String × Option NavState)
  | .mk _ rs => rs

/-- `getActiveRouteName`: select `routes[index ?? 0]`; if that route has no
nested `state`, return its `name`; otherwise recurse into the nested state.
An out-of-bounds selection (`routes[i]` undefined, so `route.state` throws a
TypeError) is embedded as `none`. -/
def getActiveRouteName (s : NavState) : Option String :=
  match h : s.routes.get? (s.index.getD 0) with
  | none => none
  | some (name, none) => some name
  | some (_, some child) => getActiveRouteName child
termination_by sizeOf s
decreasing_by
  have hmem := List.get?_mem h
  have h1 := List.sizeOf_lt_sizeOf_of_mem hmem
  cases s with
  | mk i rs =>
    simp only [NavState.routes] at h1
    simp only [NavState.mk.sizeOf_spec]
    simp only [Prod.mk.sizeOf_spec, Option.some.sizeOf_spec] at h1
    omega

/-- The descent of `getActiveRouteName` through `s` reaches a level whose
selected-route lookup yields no route (empty `routes`, or the defaulted index
out of bounds): exactly the states on which the source function throws instead
of returning a name. -/
inductive Faults : NavState → Prop where
  | noRoute (s : NavState) (h : s.routes.get? (s.index.getD 0) = none) : Faults s
  | inChild (s : NavState) (name : String) (child : NavState)
      (h : s.routes.get? (s.index.getD 0) = some (name, some child))
      (hc : Faults child) : Faults s

/-! ## Back-button handling

`useBackButtonHandler` registers one `hardwareBackPress` listener on mount
(empty dependency array), keeps the exit predicate in a ref that each render
refreshes, and unregisters only on unmount. On iOS the hook returns before
installing anything. -/

/-- The side effect a back-press handler run performs on the host. -/
inductive BackEffect where
  | exitApp
  | goBack
  | nothing
deriving DecidableEq

/-- `onBackPress`: if the host is not ready, report unhandled (`false`);
otherwise look up the active route name from the root state (a faulting
lookup propagates, embedded as `none`), then: exit predicate true → exit the
app, handled; else if the host can go back → go back, handled; else
unhandled. -/
def onBackPress (ready : Bool) (rootState : NavState) (canExit : String → Bool)
    (hostCanGoBack : Bool) : Option (BackEffect × Bool) :=
  if !ready then some (BackEffect.nothing, false)
  else
    match getActiveRouteName rootState with
    | none => none
    | some routeName =>
      if canExit routeName then some (BackEffect.exitApp, true)
      else if hostCanGoBack then some (BackEffect.goBack, true)
      else some (BackEffect.nothing, false)

/-- State of one mounted `useBackButtonHandler` instance: the exit predicate
currently held in `canExitRef`, the number of `addEventListener` /
`removeEventListener` calls made so far, and whether the listener is
registered. -/
structure BackHookState where
  refPred : String → Bool
  addCalls : Nat
  removeCalls : Nat
  registered : Bool

/-- The hook before its first render: no predicate stored (placeholder), no
listener calls made. -/
def initBackHook : BackHookState :=
  { refPred := fun _ => false, addCalls := 0, removeCalls := 0, registered := false }

/-- Events driving `useBackButtonHandler`: a render with the current `canExit`
prop, a hardware back press (with the host's readiness, root state and
`canGoBack()` answer at that moment), and unmount. -/
inductive BackEvent where
  | render (canExit : String → Bool)
  | press (ready : Bool) (rootState : NavState) (hostCanGoBack : Bool)
  | unmount

/-- Outcome of one delivered back press, as seen by the platform. -/
inductive PressResult where
  | unhandled
  | fault
  | handled (eff : BackEffect) (result : Bool)
deriving DecidableEq

/-- The `PressResult` produced by running the registered `onBackPress`
closure. -/
def pressResultOf (ready : Bool) (rootState : NavState) (canExit : String → Bool)
    (hostCanGoBack : Bool) : PressResult :=
  match onBackPress ready rootState canExit hostCanGoBack with
  | none => PressResult.fault
  | some (eff, b) => PressResult.handled eff b

/-- One step of the hook. Render: on iOS the hook returns before touching
anything; otherwise the ref is refreshed to the latest predicate and the
listener is registered once (mount effect has an empty dependency array, so
it never re-runs). Press: the registered listener runs `onBackPress` reading
`canExitRef.current`; with no listener the event is unhandled. Unmount: the
cleanup removes the listener. -/
def backHookStep (ios : Bool) (st : BackHookState) :
    BackEvent → BackHookState × Option PressResult
  | .render f =>
    if ios then (st, none)
    else
      ({ st with
          refPred := f
          addCalls := if st.registered then st.addCalls else st.addCalls + 1
          registered := true }, none)
  | .press ready root cgb =>
    if st.registered then (st, some (pressResultOf ready root st.refPred cgb))
    else (st, some PressResult.unhandled)
  | .unmount =>
    if st.registered then
      ({ st with removeCalls := st.removeCalls + 1, registered := false }, none)
    else (st, none)

/-- Run the hook over a list of events, collecting the press results. -/
def backHookRun (ios : Bool) (st : BackHookState) :
    List BackEvent → BackHookState × List PressResult
  | [] => (st, [])
  | e :: es =>
    let step := backHookStep ios st e
    let rest := backHookRun ios step.1 es
    (rest.1, step.2.toList ++ rest.2)

/-! ## Navigation persistence controller

`useNavigationPersistence` in
`src/navigation/helpers/navigationUtilities.ts`. `__DEV__` is embedded as the
parameter `isDev` (true in development builds, false in production builds);
the `persistNavigation` configuration value is a string. -/

/-- `navigationRestoredDefaultState(persistNavigation)`: the initial value of
the `isRestored` flag. `false` means restoration still has to happen; `true`
(all unrecognized policies) means restoration is disabled and the controller
starts out already "restored". -/
def navigationRestoredDefaultState (persistNavigation : String) (isDev : Bool) : Bool :=
  if persistNavigation = "always" then false
  else if persistNavigation = "dev" ∧ isDev then false
  else if persistNavigation = "prod" ∧ ¬isDev then false
  else true

/-- The hook state of `useNavigationPersistence`: the `initialNavigationState`
and `isRestored` pieces of React state. -/
structure PersistState where
  initialNavigationState : Option NavState
  isRestored : Bool

/-- The hook state right after initialization: no initial navigation state,
`isRestored` seeded from `navigationRestoredDefaultState(Config.persistNavigation)`. -/
def persistenceInit (persistNavigation : String) (isDev : Bool) : PersistState :=
  { initialNavigationState := none
    isRestored := navigationRestoredDefaultState persistNavigation isDev }

/-- What the awaited `storage.getItem(persistenceKey, 'object')` call does:
resolve with a stored state, resolve with nothing (null/undefined), or
throw/reject. -/
inductive ReadOutcome where
  | success (s : NavState)
  | absent
  | failure

/-- `restoreState`: `try { const state = await storage.getItem(...); if
(state) setInitialNavigationState(state) } finally { if (isMounted())
setIsRestored(true) }`. The `try` body updates the initial state only on a
truthy read; the `finally` block sets the flag whenever the component is
still mounted, on success, absence and failure alike. -/
def restoreState (outcome : ReadOutcome) (mounted : Bool) (st : PersistState) : PersistState :=
  let afterTry :=
    match outcome with
    | ReadOutcome.success s => { st with initialNavigationState := some s }
    | ReadOutcome.absent => st
    | ReadOutcome.failure => st
  if mounted then { afterTry with isRestored := true } else afterTry

/-- The guard of the startup effect, `useEffect(() => { if (!isRestored &&
__DEV__) restoreState() }, [isRestored])`, evaluated on the freshly
initialized hook state: whether the persisted-state read is performed at
startup. -/
def restoreReadHappens (persistNavigation : String) (isDev : Bool) : Bool :=
  !(persistenceInit persistNavigation isDev).isRestored && isDev

/-- One startup of the persistence controller: initialize the hook state,
then run the startup effect, which calls `restoreState` exactly when its
guard `!isRestored && __DEV__` holds. -/
def runStartup (persistNavigation : String) (isDev : Bool) (outcome : ReadOutcome)
    (mounted : Bool) : PersistState :=
  let st := persistenceInit persistNavigation isDev
  if restoreReadHappens persistNavigation isDev then restoreState outcome mounted st else st

/-- Restore-policy table following the spec's words, for comparison with the
code's behavior: `'always'` restores in every build, `'dev'` only in
development builds, `'prod'` only in production builds, anything else never
restores. -/
def specRestoreTable (persistNavigation : String) (isDev : Bool) : Bool :=
  if persistNavigation = "always" then true
  else if persistNavigation = "dev" then isDev
  else if persistNavigation = "prod" then !isDev
  else false

/-- The exported `canGoBack` of the `RootNavigation` handle: `if
(navigationRef.isReady()) navigationRef.canGoBack()` — the host's answer is
computed but never returned, and the function body has no return statement,
so the call evaluates to `undefined` (embedded as `none`) on every path. -/
def RootNavigation.canGoBack (ready : Bool) (hostCanGoBack : Bool) : Option Bool :=
  if ready then
    let _ := hostCanGoBack
    none
  else none

/-! ## Helper lemmas -/

/-- `runMoves` never touches the gesture context: `ctx.startY` is only
written by the start handler. -/
theorem runMoves_startY (tys : List ℚ) (st : SheetState) :
    (runMoves tys st).startY = st.startY := by
  induction tys generalizing st with
  | nil => rfl
  | cons ty tys ih =>
    simp only [runMoves, List.foldl_cons] at ih ⊢
    rw [ih]
    rfl

/-- Splitting a drag phase: the moves of `tys` followed by the moves of
`tys2`. -/
theorem runMoves_append (tys tys2 : List ℚ) (st : SheetState) :
    runMoves (tys ++ tys2) st = runMoves tys2 (runMoves tys st) := by
  simp only [runMoves, List.foldl_append]

/-- A render sequence with a referentially stable dependency runs the effect
body exactly once: re-renders never change the dependency, so only the first
render triggers it. -/
theorem effectExecutionsFrom_replicate (k : Nat) (d : Nat) :
    effectExecutionsFrom d (List.replicate k d) = 0 := by
  induction k with
  | zero => rfl
  | succ k ih =>
    simp [List.replicate_succ, effectExecutionsFrom, ih]

/-- Unfolding `getActiveRouteName` when the selected-route lookup yields no
route. -/
theorem gar_of_none (s : NavState) (h : s.routes.get? (s.index.getD 0) = none) :
    getActiveRouteName s = none := by
  rw [getActiveRouteName]
  split
  · rfl
  · rename_i heq
    rw [h] at heq
    exact Option.noConfusion heq
  · rename_i heq
    rw [h] at heq
    exact Option.noConfusion heq

/-- Unfolding `getActiveRouteName` when the selected route has no nested
state. -/
theorem gar_of_leaf (s : NavState) (name : String)
    (h : s.routes.get? (s.index.getD 0) = some (name, none)) :
    getActiveRouteName s = some name := by
  rw [getActiveRouteName]
  split
  · rename_i heq
    rw [h] at heq
    exact Option.noConfusion heq
  · rename_i heq
    rw [h] at heq
    cases heq
    rfl
  · rename_i heq
    rw [h] at heq
    cases heq

/-- Unfolding `getActiveRouteName` when the selected route has a nested
state. -/
theorem gar_of_child (s : NavState) (name : String) (child : NavState)
    (h : s.routes.get? (s.index.getD 0) = some (name, some child)) :
    getActiveRouteName s = getActiveRouteName child := by
  rw [getActiveRouteName]
  split
  · rename_i heq
    rw [h] at heq
    exact Option.noConfusion heq
  · rename_i heq
    rw [h] at heq
    cases heq
  · rename_i heq
    rw [h] at heq
    cases heq
    rfl

/-- A faulting descent makes `getActiveRouteName` return no name. -/
theorem faults_gar_none (s : NavState) (hf : Faults s) : getActiveRouteName s = none := by
  induction hf with
  | noRoute s h => exact gar_of_none s h
  | inChild s name child h hc ih =>
    rw [gar_of_child s name child h]
    exact ih

/-- Conversely, `getActiveRouteName` returns no name only on a faulting
descent (strong induction on the size of the state). -/
theorem gar_none_faults_aux :
    ∀ (n : Nat) (s : NavState), sizeOf s ≤ n → getActiveRouteName s = none → Faults s := by
  intro n
  induction n with
  | zero =>
    intro s hsz
    cases s with
    | mk i rs => simp at hsz
  | succ n ih =>
    intro s hsz hnone
    match h : s.routes.get? (s.index.getD 0) with
    | none => exact Faults.noRoute s h
    | some (name, none) =>
      rw [gar_of_leaf s name h] at hnone
      exact Option.noConfusion hnone
    | some (name, some child) =>
      refine Faults.inChild s name child h (ih child ?_ ?_)
      · have hmem := List.get?_mem h
        have h1 := List.sizeOf_lt_sizeOf_of_mem hmem
        cases s with
        | mk i rs =>
          simp only [NavState.routes] at h1
          simp only [NavState.mk.sizeOf_spec] at hsz
          simp only [Prod.mk.sizeOf_spec, Option.some.sizeOf_spec] at h1
          omega
      · rw [← gar_of_child s name child h]
        exact hnone

/-- The `finally` block of `restoreState` sets the "restoration attempted"
flag for every read outcome while the component is mounted. -/
theorem restoreState_sets_isRestored (outcome : ReadOutcome) (st : PersistState) :
    (restoreState outcome true st).isRestored = true := by
  cases outcome <;> rfl

/-! ## Claim theorems -/

/-- C3: a start event captures `dragStartOffset = translateY.value` and
mutates nothing else; after any sequence of move events whose cumulative
translation since gesture start is `dy` (each move event carries the
cumulative translation, so the last one carries `dy`), the move handler
leaves the vertical offset at exactly `s + dy`, unclamped, and the scale at
`1 - dy / 1000` when `dy > 0` and at `1` otherwise. -/
theorem gesture_move_tracks_translation (st : SheetState) (tys : List ℚ) (dy : ℚ) :
    (onStart st).startY = st.translateY.current ∧
    (onStart st).translateY = st.translateY ∧
    (onStart st).scale = st.scale ∧
    (runMoves (tys ++ [dy]) (onStart st)).translateY.current
      = st.translateY.current + dy ∧
    (runMoves (tys ++ [dy]) (onStart st)).scale.current
      = (if dy > 0 then 1 - dy / 1000 else 1) := by
  refine ⟨rfl, rfl, rfl, ?_, ?_⟩ <;>
    rw [runMoves_append, show runMoves [dy] (runMoves tys (onStart st))
        = onActive dy (runMoves tys (onStart st)) from rfl] <;>
    simp [onActive, SharedValue.assign, runMoves_startY, onStart]

/-- C4: after every gesture end event, whatever the offset and scale were at
release, both are put under spring animations whose targets are the resting
values, so they eventually settle at `verticalOffset = 0` and `scale = 1`;
the handler installs the same springs for every release state and consults no
threshold, so no fling can dismiss the sheet. -/
theorem gesture_end_springs_to_rest (st : SheetState) :
    SharedValue.eventualValue (onEnd st).translateY = 0 ∧
    SharedValue.eventualValue (onEnd st).scale = 1 ∧
    (onEnd st).translateY.anim = some (Anim.spring 0) ∧
    (onEnd st).scale.anim = some (Anim.spring 1) := by
  exact ⟨rfl, rfl, rfl, rfl⟩

/-- C5: the mount effect sets `verticalOffset` instantaneously to 300 and
installs a time-based (non-spring) 1000 ms animation toward 0; for every
easing curve that is monotone and fixes 0 and 1, the animated value is 300 at
time 0, reaches 0 at 1000 ms, and decreases monotonically in between; and
because the effect's dependency (the shared-value handle) is referentially
stable, any sequence of `n ≥ 1` renders runs the entrance effect exactly
once. -/
theorem mount_entrance_one_shot (st : SheetState) (ease : ℚ → ℚ) (n depId : Nat)
    (hmono : Monotone ease) (h0 : ease 0 = 0) (h1 : ease 1 = 1) (hn : 1 ≤ n) :
    (mountEffect st).translateY.current = 300 ∧
    (mountEffect st).translateY.anim = some (Anim.timing 0 1000) ∧
    timingValueAt 300 0 1000 ease 0 = 300 ∧
    timingValueAt 300 0 1000 ease 1000 = 0 ∧
    (∀ t₁ t₂ : ℚ, t₁ ≤ t₂ →
      timingValueAt 300 0 1000 ease t₂ ≤ timingValueAt 300 0 1000 ease t₁) ∧
    effectExecutions (List.replicate n depId) = 1 := by
  refine ⟨rfl, rfl, ?_, ?_, ?_, ?_⟩
  · simp [timingValueAt]
    simp [h0]
  · simp [timingValueAt]
    simp [h1]
  · intro t₁ t₂ ht
    have hd : t₁ / 1000 ≤ t₂ / 1000 := by
      apply div_le_div_of_nonneg_right ht
      norm_num
    have he := hmono hd
    simp only [timingValueAt]
    nlinarith [he]
  · obtain ⟨m, rfl⟩ : ∃ m, n = m + 1 := ⟨n - 1, by omega⟩
    simp [List.replicate_succ, effectExecutions, effectExecutionsFrom_replicate]

/-- Witness for C5: the identity easing curve is monotone and fixes 0 and 1,
and two renders of the stable dependency run the entrance effect once. -/
theorem mount_entrance_one_shot_witness :
    (Monotone (id : ℚ → ℚ) ∧ (id : ℚ → ℚ) 0 = 0 ∧ (id : ℚ → ℚ) 1 = 1 ∧ 1 ≤ 2) ∧
    ((mountEffect ⟨⟨0, none⟩, ⟨1, none⟩, 0⟩).translateY.current = 300 ∧
     (mountEffect ⟨⟨0, none⟩, ⟨1, none⟩, 0⟩).translateY.anim = some (Anim.timing 0 1000) ∧
     timingValueAt 300 0 1000 id 0 = 300 ∧
     timingValueAt 300 0 1000 id 1000 = 0 ∧
     (∀ t₁ t₂ : ℚ, t₁ ≤ t₂ →
       timingValueAt 300 0 1000 id t₂ ≤ timingValueAt 300 0 1000 id t₁) ∧
     effectExecutions (List.replicate 2 0) = 1) :=
  ⟨⟨monotone_id, rfl, rfl, by decide⟩,
   mount_entrance_one_shot ⟨⟨0, none⟩, ⟨1, none⟩, 0⟩ id 2 0 monotone_id rfl rfl (by decide)⟩

/-- C6: when the index-selected route has no nested state,
`getActiveRouteName` returns that route's name directly; when it has a nested
state, the lookup recurses into it; and on the nested example state the
deepest selected leaf is `"Settings"`. -/
theorem active_route_name_recursion :
    (∀ (s : NavState) (name : String),
        s.routes.get? (s.index.getD 0) = some (name, none) →
        getActiveRouteName s = some name) ∧
    (∀ (s : NavState) (name : String) (child : NavState),
        s.routes.get? (s.index.getD 0) = some (name, some child) →
        getActiveRouteName s = getActiveRouteName child) ∧
    getActiveRouteName
      (NavState.mk (some 0)
        [⟨"Tab", some (NavState.mk (some 1) [⟨"Home", none⟩, ⟨"Settings", none⟩])⟩])
      = some "Settings" := by
  refine ⟨gar_of_leaf, gar_of_child, ?_⟩
  rw [gar_of_child
        (NavState.mk (some 0)
          [⟨"Tab", some (NavState.mk (some 1) [⟨"Home", none⟩, ⟨"Settings", none⟩])⟩])
        "Tab" (NavState.mk (some 1) [⟨"Home", none⟩, ⟨"Settings", none⟩]) rfl,
      gar_of_leaf (NavState.mk (some 1) [⟨"Home", none⟩, ⟨"Settings", none⟩]) "Settings" rfl]

/-- Witness for C6: a flat one-route state returns its route name directly,
and a nested state steps into its child. -/
theorem active_route_name_recursion_witness :
    getActiveRouteName (NavState.mk (some 0) [⟨"Home", none⟩]) = some "Home" ∧
    getActiveRouteName (NavState.mk none [⟨"Tab", some (NavState.mk (some 0) [⟨"Todo", none⟩])⟩])
      = getActiveRouteName (NavState.mk (some 0) [⟨"Todo", none⟩]) :=
  ⟨active_route_name_recursion.1 (NavState.mk (some 0) [⟨"Home", none⟩]) "Home" rfl,
   active_route_name_recursion.2.1
     (NavState.mk none [⟨"Tab", some (NavState.mk (some 0) [⟨"Todo", none⟩])⟩])
     "Tab" (NavState.mk (some 0) [⟨"Todo", none⟩]) rfl⟩

/-- C7: for a back press delivered while the host is ready, with active route
name `routeName`: if the exit predicate accepts it the app is terminated and
the event reported handled; if it rejects it and the host can go back, a back
navigation is performed and the event reported handled; if it rejects it and
the host cannot go back, the event is reported not handled. -/
theorem back_press_dispatch (rootState : NavState) (canExit : String → Bool)
    (routeName : String) (hroute : getActiveRouteName rootState = some routeName) :
    (canExit routeName = true → ∀ g : Bool,
        onBackPress true rootState canExit g = some (BackEffect.exitApp, true)) ∧
    (canExit routeName = false →
        onBackPress true rootState canExit true = some (BackEffect.goBack, true)) ∧
    (canExit routeName = false →
        onBackPress true rootState canExit false = some (BackEffect.nothing, false)) := by
  refine ⟨fun hex g => ?_, fun hex => ?_, fun hex => ?_⟩ <;>
    simp [onBackPress, hroute, hex]

/-- Witness for C7: on a ready host showing `"Home"`, a predicate accepting
`"Home"` exits the app; a rejecting predicate turns the press into a back
navigation when the host can go back, and leaves it unhandled when it
cannot. -/
theorem back_press_dispatch_witness :
    onBackPress true (NavState.mk (some 0) [⟨"Home", none⟩]) (fun r => r == "Home") true
      = some (BackEffect.exitApp, true) ∧
    onBackPress true (NavState.mk (some 0) [⟨"Home", none⟩]) (fun _ => false) true
      = some (BackEffect.goBack, true) ∧
    onBackPress true (NavState.mk (some 0) [⟨"Home", none⟩]) (fun _ => false) false
      = some (BackEffect.nothing, false) :=
  ⟨(back_press_dispatch _ (fun r => r == "Home") "Home"
      (gar_of_leaf (NavState.mk (some 0) [⟨"Home", none⟩]) "Home" rfl)).1 (by decide) true,
   (back_press_dispatch _ (fun _ => false) "Home"
      (gar_of_leaf (NavState.mk (some 0) [⟨"Home", none⟩]) "Home" rfl)).2.1 rfl,
   (back_press_dispatch _ (fun _ => false) "Home"
      (gar_of_leaf (NavState.mk (some 0) [⟨"Home", none⟩]) "Home" rfl)).2.2 rfl⟩

/-- C8: across two back presses with a render replacing the exit predicate in
between, the hook's single registered listener consults the newest predicate
on each press — the first press runs with the first predicate, the second
press with the replacement — while `addEventListener` has been called exactly
once and `removeEventListener` never. -/
theorem back_press_uses_latest_predicate (f₁ f₂ : String → Bool)
    (r₁ r₂ : NavState) (ready₁ ready₂ g₁ g₂ : Bool) :
    (backHookRun false initBackHook
        [BackEvent.render f₁, BackEvent.press ready₁ r₁ g₁,
         BackEvent.render f₂, BackEvent.press ready₂ r₂ g₂]).2
      = [pressResultOf ready₁ r₁ f₁ g₁, pressResultOf ready₂ r₂ f₂ g₂] ∧
    (backHookRun false initBackHook
        [BackEvent.render f₁, BackEvent.press ready₁ r₁ g₁,
         BackEvent.render f₂, BackEvent.press ready₂ r₂ g₂]).1.addCalls = 1 ∧
    (backHookRun false initBackHook
        [BackEvent.render f₁, BackEvent.press ready₁ r₁ g₁,
         BackEvent.render f₂, BackEvent.press ready₂ r₂ g₂]).1.removeCalls = 0 := by
  exact ⟨rfl, rfl, rfl⟩

/-- C9: the exported `RootNavigation.canGoBack` always evaluates to
`undefined`, even on a ready host whose own `canGoBack()` answers true: the
host's boolean answer is never forwarded to the caller. -/
theorem root_canGoBack_returns_undefined (ready hostCanGoBack : Bool) :
    RootNavigation.canGoBack ready hostCanGoBack = none ∧
    RootNavigation.canGoBack true true = none := by
  refine ⟨?_, rfl⟩
  cases ready <;> rfl

/-- C10: `getActiveRouteName` fails to produce a name exactly when the
descent reaches a nesting level whose defaulted index selects no entry of the
routes list (empty list or out-of-bounds index); on every other state it is
total. -/
theorem active_route_name_none_iff_faults (s : NavState) :
    getActiveRouteName s = none ↔ Faults s :=
  ⟨gar_none_faults_aux (sizeOf s) s le_rfl, faults_gar_none s⟩

/-- C1 (code bug): the spec's restore-policy table says `('prod', prod)` and
`('always', prod)` restore, and `navigationRestoredDefaultState` agrees that
restoration is to happen there (it returns `false`, seeding `isRestored`
false) — but the startup effect's guard `!isRestored && __DEV__` is false in
every production build, so the restoration read is never performed for
either pair. -/
theorem restore_policy_table_divergence :
    navigationRestoredDefaultState "prod" false = false ∧
    navigationRestoredDefaultState "always" false = false ∧
    specRestoreTable "prod" false = true ∧
    restoreReadHappens "prod" false = false ∧
    specRestoreTable "always" false = true ∧
    restoreReadHappens "always" false = false := by
  decide

/-- C2 (code bug): with policy `'always'` in a production build, restoration
is enabled by the policy (`navigationRestoredDefaultState` returns `false`),
yet the startup effect never invokes `restoreState` — its guard requires
`__DEV__` — so for every read outcome and mount status the `isRestored` flag
stays false after startup and the host is left waiting. -/
theorem restore_flag_stuck_in_prod (outcome : ReadOutcome) (mounted : Bool) :
    navigationRestoredDefaultState "always" false = false ∧
    restoreReadHappens "always" false = false ∧
    (runStartup "always" false outcome mounted).isRestored = false := by
  refine ⟨by decide, by decide, ?_⟩
  simp [runStartup, restoreReadHappens, persistenceInit]
  decide
